import Mathlib

/-!
Verification of the Nudge behavioral-memory and nudge-decision engine.

Shallow embedding of the Python sources under `backend/app/`:
`memory.py` (trait ledger, relevance ranker), `behaviour_analyzer.py`,
`nlp_analysis.py` (the pure parts), `task_nudging.py` (the pure parts),
`dark_nudge_engine.py` and `nudge_scoring.py`.

Modelling conventions:
- Time is measured in whole minutes (`ℤ`); Python's `timedelta.days` becomes
  floor division by 1440.
- Mongo documents become association lists keyed by strings; `update_trait`
  mirrors the read-modify-write in `memory.py`.
- The external emotion classifier (`detect_emotion`) and the procrastination
  regular-expression matcher are passed in as oracle functions, so theorems
  quantify over every possible classifier behaviour.
- `random.choice` becomes an explicit index parameter; `infer_ongoing_tasks`
  (a Mongo aggregation) is passed in as the task list it would return.
- Fractional constants use `ℚ`, which represents the source's decimal
  literals exactly.
-/

set_option maxRecDepth 2000

namespace Nudge

/-- Values storable in a user's trait document (`traits_collection`). A
`time` value models a successfully parseable ISO timestamp measured in
minutes; a `str` under a time-valued key models an unparseable timestamp. -/
inductive TraitVal where
  | num (q : ℚ)
  | str (s : String)
  | boolean (b : Bool)
  | strList (l : List String)
  | time (t : ℤ)
deriving DecidableEq, Repr

/-- One user's trait mapping, as an association list (a Python dict). -/
abbrev Traits := List (String × TraitVal)

/-- The whole `traits_collection`: user id to trait mapping. -/
abbrev Ledger := List (String × Traits)

/-- First-match lookup in an association list (Python `dict` access). -/
def lookupKey {α : Type} : List (String × α) → String → Option α
  | [], _ => none
  | (k, v) :: rest, key => if k = key then some v else lookupKey rest key

/-- Update or insert one key in an association list (`d[k] = v`). -/
def setKey {α : Type} : List (String × α) → String → α → List (String × α)
  | [], key, v => [(key, v)]
  | (k, w) :: rest, key, v =>
      if k = key then (key, v) :: rest else (k, w) :: setKey rest key v

/-- Python `traits.get(k, default)` for a numeric trait. -/
def getNum (t : Traits) (k : String) (d : ℚ) : ℚ :=
  match lookupKey t k with
  | some (.num n) => n
  | _ => d

/-- Python `traits.get(k, default)` for a string trait. -/
def getStr (t : Traits) (k : String) (d : String) : String :=
  match lookupKey t k with
  | some (.str s) => s
  | _ => d

/-- Python `traits.get(k, default)` for a boolean trait. -/
def getBool (t : Traits) (k : String) (d : Bool) : Bool :=
  match lookupKey t k with
  | some (.boolean b) => b
  | _ => d

/-- Python `traits.get(k)` for a list trait; `none` when absent or of
another shape. -/
def getList (t : Traits) (k : String) : Option (List String) :=
  match lookupKey t k with
  | some (.strList l) => some l
  | _ => none

/-- Reads a stored timestamp. `some t` corresponds to
`datetime.fromisoformat` succeeding; any other stored shape corresponds to
the `except` fallthrough in the source. -/
def getTime (t : Traits) (k : String) : Option ℤ :=
  match lookupKey t k with
  | some (.time x) => some x
  | _ => none

/-- `memory.update_trait`: read the user's document, set one key, write the
mapping back; insert a fresh single-key document when the user is new. -/
def update_trait (led : Ledger) (uid k : String) (v : TraitVal) : Ledger :=
  match lookupKey led uid with
  | some tr => setKey led uid (setKey tr k v)
  | none => led ++ [(uid, [(k, v)])]

/-- `memory.get_traits`: the user's mapping, `{}` when absent. -/
def get_traits (led : Ledger) (uid : String) : Traits :=
  (lookupKey led uid).getD []

/-- Does the pattern occur at the head of the text? -/
def chunkLead : List Char → List Char → Bool
  | [], _ => true
  | _ :: _, [] => false
  | a :: as, b :: bs => a = b && chunkLead as bs

/-- Does the pattern occur anywhere in the text? -/
def chunkSomewhere (pat : List Char) : List Char → Bool
  | [] => chunkLead pat []
  | c :: rest => chunkLead pat (c :: rest) || chunkSomewhere pat rest

/-- Python's substring test `pat in s`. -/
def occursIn (pat s : String) : Bool :=
  chunkSomewhere pat.data s.data

/-- Python `str.split()` (split on whitespace, dropping empty pieces). -/
def pySplitWhitespace (s : String) : List String :=
  (s.split Char.isWhitespace).filter (fun w => w ≠ "")

/-- `behaviour_analyzer.COMMON_EXCUSES` (exact phrases; two use U+2019). -/
def COMMON_EXCUSES : List String :=
  ["i\x27ll do it later", "i\x27m tired", "maybe tomorrow", "not in the mood",
   "i\x27m lazy", "i’m overwhelmed", "i don’t feel ready"]

/-- `behaviour_analyzer.EMOTIONAL_PHRASES` in dict insertion order. -/
def EMOTIONAL_PHRASES : List (String × String) :=
  [("stuck", "feels_stuck"),
   ("broke my promise", "broke_promise"),
   ("ashamed", "expresses_shame"),
   ("shame", "expresses_shame"),
   ("exhausted", "expresses_exhaustion"),
   ("hopeless", "expresses_hopelessness")]

/-- `behaviour_analyzer.RESISTANCE_KEYWORDS`. -/
def RESISTANCE_KEYWORDS : List String :=
  ["stop", "leave me alone", "this isn\x27t working", "i don\x27t care",
   "shut up", "you\x27re annoying", "you\x27re not helping",
   "why do you keep pushing", "let me be"]

/-- `behaviour_analyzer.detect_resistance`. -/
def detect_resistance (message : String) : Bool :=
  RESISTANCE_KEYWORDS.any (fun kw => occursIn kw message)

/-- The flag slug `excuse.replace(' ', '_')`. -/
def slugOf (excuse : String) : String :=
  excuse.map (fun c => if c = ' ' then '_' else c)

/-- State threaded through the excuse-detection loop. `aliased` models the
Python aliasing of `current_user_traits.get("common_excuses_list", [])`:
when the key exists in the snapshot, `.get` returns the one stored list
object, which the loop mutates in place; when the key is absent, `.get`
returns a fresh empty list on every iteration, so each write overwrites the
stored value with a one-element list. -/
structure ExcuseState where
  led : Ledger
  aliased : Option (List String)
  flags : List String
deriving DecidableEq, Repr

/-- One iteration of the excuse loop in `analyze_behavior`. -/
def excuseStep (uid lmsg : String) (st : ExcuseState) (excuse : String) : ExcuseState :=
  if occursIn excuse lmsg ∧ excuse ∉ st.aliased.getD [] then
    match st.aliased with
    | some l =>
        let l2 := l ++ [excuse]
        { led := update_trait st.led uid "common_excuses_list" (.strList l2),
          aliased := some l2,
          flags := st.flags ++ ["excuse:" ++ slugOf excuse] }
    | none =>
        { led := update_trait st.led uid "common_excuses_list" (.strList [excuse]),
          aliased := none,
          flags := st.flags ++ ["excuse:" ++ slugOf excuse] }
  else st

/-- `behaviour_analyzer.analyze_behavior`, state-passing form.
`emoOracle` stands for the external `detect_emotion` classifier and
`procMatch` for `any(re.search(p, lowered_msg) for p in
PROCRASTINATION_PATTERNS)` (the loop breaks after the first matching
pattern, so only the disjunction matters). Returns the emitted flag list
and the ledger after all trait writes. All numeric reads use the trait
snapshot taken at entry, exactly as the source reads
`current_user_traits` fetched once. -/
def analyze_behavior (emoOracle : String → String) (procMatch : String → Bool)
    (led : Ledger) (uid message : String) : List String × Ledger :=
  let lmsg := message.toLower
  let snapshot := get_traits led uid
  let st0 : ExcuseState :=
    { led := led, aliased := getList snapshot "common_excuses_list", flags := [] }
  let st1 := COMMON_EXCUSES.foldl (excuseStep uid lmsg) st0
  let step2 : List String × Ledger :=
    if procMatch lmsg then
      (st1.flags ++ ["procrastination"],
       update_trait st1.led uid "procrastination_level"
         (.num (getNum snapshot "procrastination_level" 0 + 1)))
    else (st1.flags, st1.led)
  let step3 : List String × Ledger :=
    EMOTIONAL_PHRASES.foldl
      (fun acc pf =>
        if occursIn pf.1 lmsg then
          (acc.1 ++ [pf.2], update_trait acc.2 uid pf.2 (.boolean true))
        else acc)
      step2
  let step4 : List String × Ledger :=
    if detect_resistance lmsg then
      (step3.1 ++ ["resistance"],
       update_trait step3.2 uid "retreat_count"
         (.num (getNum snapshot "retreat_count" 0 + 1)))
    else step3
  (step4.1, update_trait step4.2 uid "last_detected_mood" (.str (emoOracle message)))

/-- `nlp_analysis.is_task_like_message` keyword list. -/
def TASK_KEYWORDS : List String :=
  ["need to", "have to", "should", "must", "plan to", "goal", "target",
   "want to", "finish", "start", "complete"]

/-- `nlp_analysis.is_task_like_message`. -/
def is_task_like_message (text : String) : Bool :=
  TASK_KEYWORDS.any (fun kw => occursIn kw text.toLower)

/-- One entry of the list `task_nudging.infer_ongoing_tasks` returns (the
fields `generate_task_nudge` reads). -/
structure TaskData where
  task : String
  avg_emotion : ℚ
  days_inactive : ℤ
  nudge_intensity : ℚ
deriving DecidableEq, Repr

/-- `task_nudging.generate_task_nudge` (exact f-string texts). -/
def generate_task_nudge (td : TaskData) : String :=
  if 0.7 < td.nudge_intensity then
    "You\x27ve been avoiding *" ++ td.task ++
      "* for a while. What\x27s stopping you really? Let\x27s handle it—step by step."
  else if 0.5 < td.nudge_intensity then
    "Hey, remember *" ++ td.task ++ "*? It\x27s been lingering for " ++
      toString td.days_inactive ++ " days. Just a little push can get it going."
  else
    "Quick reminder—*" ++ td.task ++
      "* is still open. You’ve thought about it multiple times. Want to revisit it?"

/-- `dark_nudge_engine.PERSUASION_TACTICS` (exact texts; unknown tones give
`[]`, where the Python dict access would raise). -/
def PERSUASION_TACTICS : String → List String
  | "soft" =>
      ["Let\x27s start small, just 2 minutes?",
       "You’ve done harder things before, remember?",
       "Tiny action > endless thinking."]
  | "hard" =>
      ["You keep putting it off… when’s it going to change?",
       "Let’s stop pretending you’re stuck. You’re stalling.",
       "Another excuse? Classic."]
  | "dark" =>
      ["You promised yourself you\x27d do this. Are you breaking that promise again?",
       "Imagine explaining this excuse to your future self.",
       "Time is finite. Every delay costs you something."]
  | "teasing" =>
      ["Oh come on, scared of a little challenge?",
       "Didn’t expect you to flake… but here we are 😏",
       "Go ahead, procrastinate. It’s your thing, right?"]
  | "existential" =>
      ["If you don’t act now, who will you become?",
       "Every choice you make… makes you. What does this one say?"]
  | _ => []

/-- `dark_nudge_engine.MAX_DARK_NUDGES_PER_DAY`. -/
def MAX_DARK_NUDGES_PER_DAY : ℚ := 3

/-- `dark_nudge_engine.NUDGE_COOLDOWN_MINUTES`. -/
def NUDGE_COOLDOWN_MINUTES : ℤ := 10

/-- `dark_nudge_engine.FATIGUE_RECOVERY_TIME`, in minutes. -/
def FATIGUE_RECOVERY_TIME : ℤ := 30

/-- `random.choice(pool)` with the random draw made an explicit index. -/
def pickTactic (pool : List String) (pick : ℕ) : String :=
  pool.getD (pick % pool.length) ""

/-- `dark_nudge_engine.select_nudge_tone`. -/
def select_nudge_tone (traits : Traits) (emotion : String) (flags : List String) : String :=
  let preference := getStr traits "preferred_nudge_tone" "soft"
  let fatigue := getNum traits "nudge_fatigue_level" 0
  if 3 ≤ fatigue then "soft"
  else if emotion ∈ ["sadness", "anxiety", "grief", "fear"] then "soft"
  else if emotion ∈ ["frustration", "anger"] then "hard"
  else if emotion ∈ ["boredom", "neutral"] ∧ "procrastination" ∈ flags then "teasing"
  else if emotion ∈ ["guilt", "shame"] then "dark"
  else if emotion = "unknown" then preference
  else preference

/-- `dark_nudge_engine.in_nudge_cooldown`: in cooldown iff a parseable
`last_nudge_time` exists and lies strictly less than 10 minutes in the past. -/
def in_nudge_cooldown (now : ℤ) (traits : Traits) : Bool :=
  match getTime traits "last_nudge_time" with
  | some t => decide (now - t < NUDGE_COOLDOWN_MINUTES)
  | none => false

/-- `dark_nudge_engine.update_retreat`: increments the ledger's
`retreat_count` starting from the value in the caller's trait snapshot. -/
def update_retreat (led : Ledger) (uid : String) (traits : Traits) : Ledger :=
  update_trait led uid "retreat_count" (.num (getNum traits "retreat_count" 0 + 1))

/-- `dark_nudge_engine.fatigue_reset`: reads the snapshot's (previous)
`last_nudge_time`; when the gap exceeds 30 minutes, overwrites
`nudge_fatigue_level` with 0. -/
def fatigue_reset (now : ℤ) (led : Ledger) (uid : String) (traits : Traits) : Ledger :=
  match getTime traits "last_nudge_time" with
  | some t =>
      if FATIGUE_RECOVERY_TIME < now - t then
        update_trait led uid "nudge_fatigue_level" (.num 0)
      else led
  | none => led

/-- `dark_nudge_engine.track_nudge_sent`: write `last_nudge_time := now`,
increment `nudge_fatigue_level` and the per-tone counter
`nudge_tone_count_<tone>` (all increments read the caller's snapshot), then
run `fatigue_reset`, which still sees the snapshot's previous nudge time. -/
def track_nudge_sent (now : ℤ) (led : Ledger) (uid tone : String) (traits : Traits) : Ledger :=
  let led1 := update_trait led uid "last_nudge_time" (.time now)
  let led2 := update_trait led1 uid "nudge_fatigue_level"
    (.num (getNum traits "nudge_fatigue_level" 0 + 1))
  let toneKey := "nudge_tone_count_" ++ tone
  let led3 := update_trait led2 uid toneKey (.num (getNum traits toneKey 0 + 1))
  fatigue_reset now led3 uid traits

/-- `dark_nudge_engine.exceeded_daily_dark_limit` reads the key
`daily_dark_nudges` (which no code path ever writes). -/
def exceeded_daily_dark_limit (traits : Traits) : Bool :=
  decide (MAX_DARK_NUDGES_PER_DAY ≤ getNum traits "daily_dark_nudges" 0)

/-- `dark_nudge_engine.shorten_nudge_if_needed`. -/
def shorten_nudge_if_needed (nudge user_input : String) : String :=
  if (pySplitWhitespace user_input).length ≤ 6 ∧ 60 < nudge.length then
    (nudge.splitOn ".").headD "" ++ "."
  else nudge

/-- The fixed de-escalation acknowledgment text of the resistance gate. -/
def DEESCALATION_TEXT : String := "Okay, I’ll back off for now."

/-- `dark_nudge_engine.generate_dark_nudge`, state-passing form. `emoOracle`
is the external `detect_emotion` classifier, `tasks` the list
`infer_ongoing_tasks(user_id)` would return and `pick` the random draw of
`random.choice`. The unused `recent_msgs` read of the source is omitted as
it has no effect. Returns the optional nudge text and the ledger after all
trait writes; `traits` is the caller's snapshot, never re-read. -/
def generate_dark_nudge (emoOracle : String → String) (tasks : List TaskData)
    (pick : ℕ) (now : ℤ) (led : Ledger) (uid user_input : String)
    (traits : Traits) (flags : List String) : Option String × Ledger :=
  if detect_resistance user_input then
    let led1 := update_retreat led uid traits
    if 2 ≤ getNum traits "retreat_count" 0 then (none, led1)
    else (some DEESCALATION_TEXT, led1)
  else if in_nudge_cooldown now traits then (none, led)
  else if is_task_like_message user_input ∧ tasks ≠ [] then
    (some (shorten_nudge_if_needed (generate_task_nudge (tasks.headD ⟨"", 0, 0, 0⟩)) user_input),
     led)
  else
    let dominant := (emoOracle user_input).toLower
    let tone0 := select_nudge_tone traits dominant flags
    let tone := if tone0 = "dark" ∧ exceeded_daily_dark_limit traits then "hard" else tone0
    let selected := pickTactic (PERSUASION_TACTICS tone) pick
    (some (shorten_nudge_if_needed selected user_input),
     track_nudge_sent now led uid tone traits)

/-- One engine turn as the HTTP layer drives it: fetch the user's current
traits from the ledger, then run `generate_dark_nudge`. -/
def runTurn (emoOracle : String → String) (tasks : List TaskData) (pick : ℕ)
    (now : ℤ) (led : Ledger) (uid msg : String) (flags : List String) :
    Option String × Ledger :=
  generate_dark_nudge emoOracle tasks pick now led uid msg (get_traits led uid) flags

/-- One stored message of `entries_collection` (the fields the relevance
ranker reads, plus the content for identity). `timestamp` is minutes since
the epoch; `none` models a missing or non-datetime `timestamp` field, which
`safe_bson_date` maps to `None`. -/
structure MemoryEntry where
  content : String
  salience : ℚ
  emotional_intensity : ℚ
  repetition_score : ℚ
  timestamp : Option ℤ
deriving DecidableEq, Repr

/-- `memory.MEMORY_DECAY_DAYS`. -/
def MEMORY_DECAY_DAYS : ℤ := 15

/-- `(now - entry_ts).days`, with the missing-timestamp fallback to the
full decay window. `timedelta.days` floors, hence `Int.fdiv` by 1440. -/
def daysOld (now : ℤ) (e : MemoryEntry) : ℤ :=
  match e.timestamp with
  | some t => Int.fdiv (now - t) 1440
  | none => MEMORY_DECAY_DAYS

/-- `decay = max(0.0, 1.0 - days_old / MEMORY_DECAY_DAYS)`. -/
def entryDecay (now : ℤ) (e : MemoryEntry) : ℚ :=
  max 0 (1 - (daysOld now e : ℚ) / (MEMORY_DECAY_DAYS : ℚ))

/-- The ranker's weight: `(salience*0.4 + intensity*0.4 + repetition*0.2) * decay`. -/
def entryWeight (now : ℤ) (e : MemoryEntry) : ℚ :=
  (e.salience * 0.4 + e.emotional_intensity * 0.4 + e.repetition_score * 0.2) *
    entryDecay now e

/-- Stable descending insertion by key: the new element goes in front of
the first element whose key is not larger, so earlier elements win ties —
the behaviour of Python's stable `list.sort(key=..., reverse=True)`. -/
def insertDescBy (w : MemoryEntry → ℚ) (x : MemoryEntry) :
    List MemoryEntry → List MemoryEntry
  | [] => [x]
  | y :: rest => if w y ≤ w x then x :: y :: rest else y :: insertDescBy w x rest

/-- Stable descending sort by key (extensionally, Python's stable
`sort(key=..., reverse=True)`). -/
def sortDescBy (w : MemoryEntry → ℚ) : List MemoryEntry → List MemoryEntry
  | [] => []
  | x :: xs => insertDescBy w x (sortDescBy w xs)

/-- `memory.get_relevant_memory` over the user's entries in store order:
keep entries with weight strictly above 0.25, sort descending by weight
(stable, so equal weights keep store order), drop the weights. -/
def get_relevant_memory (now : ℤ) (entries : List MemoryEntry) : List MemoryEntry :=
  sortDescBy (entryWeight now) (entries.filter (fun e => 0.25 < entryWeight now e))

/-- `memory.get_recent_history` for a store held in chronological order:
`find(...).sort(timestamp, -1).limit(50)` reversed, i.e. the last at most
50 entries in chronological order. Only its length feeds the score below. -/
def get_recent_history (entries : List MemoryEntry) : List MemoryEntry :=
  (entries.reverse.take 50).reverse

/-- `nudge_scoring.WEIGHTS`. -/
def WEIGHTS : String → ℚ
  | "emotional_relevance" => 0.3
  | "procrastination" => 0.2
  | "resistance" => 0.2
  | "user_engagement" => 0.1
  | "nudge_fatigue" => -0.2
  | "safe_space_mode" => -1
  | "task_relevance" => 0.2
  | _ => 0

/-- `behaviour_analyzer.is_emotionally_relevant` (`emoOracle` is the
external `detect_emotion` classifier). -/
def is_emotionally_relevant (emoOracle : String → String)
    (message : String) (flags : List String) : Bool :=
  if EMOTIONAL_PHRASES.any (fun pf => flags.contains pf.2) then true
  else if "resistance" ∈ flags then true
  else if "procrastination" ∈ flags then true
  else if emoOracle message ∈ ["anger", "sadness", "fear", "disgust", "joy", "surprise"]
    then true
  else false

/-- `nudge_scoring.calculate_nudging_score`: a weighted sum of seven
conditional contributions, clamped into `[0, 1]`. `entries` is the user's
message store (read through `get_recent_history`); `ai_response` is unused
in the source and kept for signature fidelity. -/
def calculate_nudging_score (emoOracle : String → String) (now : ℤ)
    (entries : List MemoryEntry) (user_message ai_response : String)
    (behavior_flags : List String) (user_traits : Traits) : ℚ :=
  let s0 : ℚ := 0
  let s1 := if is_emotionally_relevant emoOracle user_message behavior_flags then
      s0 + WEIGHTS "emotional_relevance" * (getNum user_traits "emotional_intensity" 0 + 1)
    else s0
  let s2 := if "procrastination" ∈ behavior_flags then
      s1 + WEIGHTS "procrastination" * (getNum user_traits "procrastination_level" 0.5 + 1)
    else s1
  let s3 := if "resistance" ∈ behavior_flags then
      s2 + WEIGHTS "resistance" * (getNum user_traits "retreat_count" 0.5 + 1)
    else s2
  let s4 := if 5 ≤ (get_recent_history entries).length then
      s3 + WEIGHTS "user_engagement"
    else s3
  let s5 := match getTime user_traits "last_nudge_sent_at" with
    | some t => if now - t < 10 then s4 + WEIGHTS "nudge_fatigue" else s4
    | none => s4
  let s6 := if getBool user_traits "safe_space_mode" false then
      s5 + WEIGHTS "safe_space_mode"
    else s5
  let s7 := if is_task_like_message user_message then
      s6 + WEIGHTS "task_relevance"
    else s6
  max 0 (min s7 1)

/-- Modelled from the spec: the tone-selection decision ladder as §4.4.4
words it — fatigue override, negative or low-energy emotion, anger or
frustration, neutral or bored with the procrastination flag, guilt or
shame, then the user's preferred tone (default soft). Used only as the
refinement reference for the code's `select_nudge_tone`. -/
def select_nudge_tone_spec (traits : Traits) (emotion : String) (flags : List String) : String :=
  if 3 ≤ getNum traits "nudge_fatigue_level" 0 then "soft"
  else if emotion = "sadness" ∨ emotion = "anxiety" ∨ emotion = "fear" ∨ emotion = "grief"
    then "soft"
  else if emotion = "anger" ∨ emotion = "frustration" then "hard"
  else if (emotion = "neutral" ∨ emotion = "boredom") ∧ "procrastination" ∈ flags
    then "teasing"
  else if emotion = "guilt" ∨ emotion = "shame" then "dark"
  else getStr traits "preferred_nudge_tone" "soft"

/-! ## Helper lemmas on the association-list stores -/

theorem lookupKey_setKey_self {α : Type} (l : List (String × α)) (k : String) (v : α) :
    lookupKey (setKey l k v) k = some v := by
  induction l with
  | nil => simp [setKey, lookupKey]
  | cons p rest ih =>
      obtain ⟨a, b⟩ := p
      by_cases h : a = k
      · simp [setKey, h, lookupKey]
      · simp [setKey, h, lookupKey, ih]

theorem lookupKey_setKey_other {α : Type} (l : List (String × α)) (k k2 : String) (v : α)
    (h : k2 ≠ k) : lookupKey (setKey l k v) k2 = lookupKey l k2 := by
  induction l with
  | nil => simp [setKey, lookupKey, Ne.symm h]
  | cons p rest ih =>
      obtain ⟨a, b⟩ := p
      by_cases ha : a = k
      · subst ha
        simp [setKey, lookupKey, Ne.symm h]
      · simp [setKey, ha, lookupKey, ih]

theorem lookupKey_append {α : Type} (l1 l2 : List (String × α)) (key : String) :
    lookupKey (l1 ++ l2) key =
      match lookupKey l1 key with
      | some v => some v
      | none => lookupKey l2 key := by
  induction l1 with
  | nil => simp [lookupKey]
  | cons p rest ih =>
      obtain ⟨a, b⟩ := p
      by_cases h : a = key <;> simp [lookupKey, h, ih]

theorem get_traits_update_self (led : Ledger) (uid k : String) (v : TraitVal) :
    get_traits (update_trait led uid k v) uid = setKey (get_traits led uid) k v := by
  unfold update_trait get_traits
  cases h : lookupKey led uid with
  | some tr => simp [lookupKey_setKey_self]
  | none => simp [lookupKey_append, h, lookupKey, setKey]

theorem get_traits_update_other (led : Ledger) (uid uid2 k : String) (v : TraitVal)
    (h : uid2 ≠ uid) :
    get_traits (update_trait led uid k v) uid2 = get_traits led uid2 := by
  unfold update_trait get_traits
  cases h2 : lookupKey led uid with
  | some tr => rw [lookupKey_setKey_other _ _ _ _ h]
  | none =>
      rw [lookupKey_append]
      cases h3 : lookupKey led uid2 <;> simp [h3, lookupKey, Ne.symm h]

/-! ## Claim theorems -/

/-- C9: `update_trait` merges exactly one key — after the call the user's
mapping sends `k` to `v`, every other key of that user keeps its prior
value, and every other user's mapping is untouched; the ledger never
bulk-replaces a mapping (`update_trait` is the only trait mutator in
`memory.py`; `set_safe_space_mode` delegates to it). -/
theorem update_trait_single_key_merge (led : Ledger) (uid k : String) (v : TraitVal) :
    lookupKey (get_traits (update_trait led uid k v) uid) k = some v ∧
    (∀ k2, k2 ≠ k →
      lookupKey (get_traits (update_trait led uid k v) uid) k2 =
        lookupKey (get_traits led uid) k2) ∧
    (∀ uid2, uid2 ≠ uid → get_traits (update_trait led uid k v) uid2 = get_traits led uid2) := by
  refine ⟨?_, ?_, ?_⟩
  · rw [get_traits_update_self, lookupKey_setKey_self]
  · intro k2 hk
    rw [get_traits_update_self, lookupKey_setKey_other _ _ _ _ hk]
  · intro uid2 hu
    exact get_traits_update_other _ _ _ _ _ hu

/-- C9 witness: the merge properties at a concrete ledger. -/
theorem update_trait_single_key_merge_witness :
    lookupKey (get_traits (update_trait [("u", [("a", TraitVal.num 1)])] "u" "b" (TraitVal.num 2)) "u") "b"
      = some (TraitVal.num 2) ∧
    lookupKey (get_traits (update_trait [("u", [("a", TraitVal.num 1)])] "u" "b" (TraitVal.num 2)) "u") "a"
      = lookupKey (get_traits [("u", [("a", TraitVal.num 1)])] "u") "a" ∧
    get_traits (update_trait [("u", [("a", TraitVal.num 1)])] "u" "b" (TraitVal.num 2)) "w"
      = get_traits [("u", [("a", TraitVal.num 1)])] "w" := by
  obtain ⟨h1, h2, h3⟩ :=
    update_trait_single_key_merge [("u", [("a", TraitVal.num 1)])] "u" "b" (TraitVal.num 2)
  exact ⟨h1, h2 "a" (by decide), h3 "w" (by decide)⟩

/-- C2 counterexample: at a concrete input (no flags, no traits, empty
history, a neutral classifier, a non-task message) the score calculator
returns 0, which is not an integer in the claimed range `[1, 5]` — the
source clamps a weighted sum into `[0, 1]` and never buckets into bands. -/
theorem nudging_score_below_claimed_range :
    calculate_nudging_score (fun _ => "neutral") 0 [] "hello" "" [] [] = 0 ∧
    ¬ (1 ≤ calculate_nudging_score (fun _ => "neutral") 0 [] "hello" "" [] []) := by
  with_unfolding_all decide

/-- C2 (amended): for every input, `calculate_nudging_score` returns a
rational in `[0, 1]`: the weighted sum of its seven conditional
contributions clamped by `max(0.0, min(score, 1.0))`. -/
theorem nudging_score_clamped_unit_interval (emoOracle : String → String) (now : ℤ)
    (entries : List MemoryEntry) (msg resp : String) (flags : List String) (traits : Traits) :
    0 ≤ calculate_nudging_score emoOracle now entries msg resp flags traits ∧
    calculate_nudging_score emoOracle now entries msg resp flags traits ≤ 1 := by
  unfold calculate_nudging_score
  constructor
  · exact le_max_left _ _
  · exact max_le (by norm_num) (min_le_right _ _)

theorem insertDescBy_perm (w : MemoryEntry → ℚ) (x : MemoryEntry) (l : List MemoryEntry) :
    List.Perm (insertDescBy w x l) (x :: l) := by
  induction l with
  | nil => exact List.Perm.refl _
  | cons y rest ih =>
      by_cases h : w y ≤ w x
      · simp only [insertDescBy, if_pos h]
        exact List.Perm.refl _
      · simp only [insertDescBy, if_neg h]
        exact (ih.cons y).trans (List.Perm.swap x y rest)

theorem sortDescBy_perm (w : MemoryEntry → ℚ) (l : List MemoryEntry) :
    List.Perm (sortDescBy w l) l := by
  induction l with
  | nil => exact List.Perm.refl _
  | cons x xs ih => exact (insertDescBy_perm w x (sortDescBy w xs)).trans (ih.cons x)

theorem insertDescBy_pairwise (w : MemoryEntry → ℚ) (x : MemoryEntry) (l : List MemoryEntry)
    (h : l.Pairwise (fun a b => w b ≤ w a)) :
    (insertDescBy w x l).Pairwise (fun a b => w b ≤ w a) := by
  induction l with
  | nil => simp [insertDescBy]
  | cons y rest ih =>
      rcases List.pairwise_cons.mp h with ⟨hy, hrest⟩
      by_cases hc : w y ≤ w x
      · simp only [insertDescBy, if_pos hc]
        refine List.pairwise_cons.mpr ⟨?_, h⟩
        intro z hz
        rcases List.mem_cons.mp hz with rfl | hz2
        · exact hc
        · exact le_trans (hy z hz2) hc
      · simp only [insertDescBy, if_neg hc]
        refine List.pairwise_cons.mpr ⟨?_, ih hrest⟩
        intro z hz
        rcases List.mem_cons.mp ((insertDescBy_perm w x rest).mem_iff.mp hz) with rfl | hz3
        · exact (not_le.mp hc).le
        · exact hy z hz3

theorem sortDescBy_pairwise (w : MemoryEntry → ℚ) (l : List MemoryEntry) :
    (sortDescBy w l).Pairwise (fun a b => w b ≤ w a) := by
  induction l with
  | nil => simp [sortDescBy]
  | cons x xs ih => exact insertDescBy_pairwise w x (sortDescBy w xs) ih

theorem sortDescBy_eq_of_const (w : MemoryEntry → ℚ) (c : ℚ) (l : List MemoryEntry)
    (h : ∀ e ∈ l, w e = c) : sortDescBy w l = l := by
  induction l with
  | nil => rfl
  | cons x xs ih =>
      have hx : w x = c := h x (List.mem_cons_self x xs)
      have hxs : ∀ e ∈ xs, w e = c := fun e he => h e (List.mem_cons_of_mem x he)
      simp only [sortDescBy, ih hxs]
      cases xs with
      | nil => rfl
      | cons y rest =>
          have hy : w y = c := hxs y (List.mem_cons_self y rest)
          simp only [insertDescBy, hx, hy, le_refl, if_pos]

/-- C4 counterexample: with salience 0.5, intensity 0.5, repetition 0 and
decay 1, the weight is 0.4, which is already strictly above the 0.25
exclusion threshold — the entry is included, so raising the repetition
score to 1 crosses no inclusion threshold. -/
theorem relevance_included_at_zero_repetition :
    get_relevant_memory 0 [⟨"m", 0.5, 0.5, 0, some 0⟩] = [⟨"m", 0.5, 0.5, 0, some 0⟩] ∧
    entryWeight 0 ⟨"m", 0.5, 0.5, 0, some 0⟩ = 0.4 ∧
    ¬ (entryWeight 0 ⟨"m", 0.5, 0.5, 0, some 0⟩ ≤ 0.25) := by
  with_unfolding_all decide

/-- C4 (amended): the ranker computes
`weight = (0.4*salience + 0.4*intensity + 0.2*repetition) * max(0, 1 - days/15)`,
excludes entries with weight ≤ 0.25 and returns the rest sorted descending
by weight; at salience = intensity = 0.5, decay = 1, repetition 0 and 1
give weights 0.4 and 0.6, both above the threshold, so the entry is
included either way. -/
theorem get_relevant_memory_filter_sort_spec (now : ℤ) (entries : List MemoryEntry) :
    (get_relevant_memory now entries).Pairwise
      (fun a b => entryWeight now b ≤ entryWeight now a) ∧
    List.Perm (get_relevant_memory now entries)
      (entries.filter (fun e => 0.25 < entryWeight now e)) ∧
    entryWeight 0 ⟨"m", 0.5, 0.5, 0, some 0⟩ = 0.4 ∧
    entryWeight 0 ⟨"m", 0.5, 0.5, 1, some 0⟩ = 0.6 ∧
    ((0.25 : ℚ) < 0.4 ∧ (0.25 : ℚ) < 0.6) := by
  refine ⟨sortDescBy_pairwise _ _, sortDescBy_perm _ _, ?_, ?_, ?_⟩
  · with_unfolding_all decide
  · with_unfolding_all decide
  · with_unfolding_all decide

/-- C5 counterexample: two same-user entries of equal weight (timestamps
100 minutes apart, so the same day-count and decay) come back in store
order — the older first — not newer-first as claimed. -/
theorem relevance_tie_older_first :
    get_relevant_memory 100 [⟨"old", 0.5, 0.5, 0, some 0⟩, ⟨"new", 0.5, 0.5, 0, some 100⟩]
      = [⟨"old", 0.5, 0.5, 0, some 0⟩, ⟨"new", 0.5, 0.5, 0, some 100⟩] ∧
    entryWeight 100 ⟨"old", 0.5, 0.5, 0, some 0⟩
      = entryWeight 100 ⟨"new", 0.5, 0.5, 0, some 100⟩ ∧
    get_relevant_memory 100 [⟨"old", 0.5, 0.5, 0, some 0⟩, ⟨"new", 0.5, 0.5, 0, some 100⟩]
      ≠ [⟨"new", 0.5, 0.5, 0, some 100⟩, ⟨"old", 0.5, 0.5, 0, some 0⟩] := by
  with_unfolding_all decide

/-- C5 (amended): `list.sort(key=..., reverse=True)` is stable, so entries
of equal weight keep the order in which the store returned them; there is
no newer-first tie-break. In particular when all entries share one weight
the ranker returns exactly the store-ordered survivors of the threshold. -/
theorem relevance_ties_keep_store_order (now : ℤ) (entries : List MemoryEntry) (c : ℚ)
    (h : ∀ e ∈ entries, entryWeight now e = c) :
    get_relevant_memory now entries =
      entries.filter (fun e => 0.25 < entryWeight now e) := by
  unfold get_relevant_memory
  exact sortDescBy_eq_of_const _ c _ (fun e he => h e (List.mem_of_mem_filter he))

/-- C5 witness: the tie theorem applied to the two equal-weight entries. -/
theorem relevance_ties_keep_store_order_witness :
    get_relevant_memory 100 [⟨"old", 0.5, 0.5, 0, some 0⟩, ⟨"new", 0.5, 0.5, 0, some 100⟩]
      = List.filter (fun e => 0.25 < entryWeight 100 e)
          [⟨"old", 0.5, 0.5, 0, some 0⟩, ⟨"new", 0.5, 0.5, 0, some 100⟩] :=
  relevance_ties_keep_store_order 100 _ 0.4 (by with_unfolding_all decide)

/-- C6: `select_nudge_tone` computes exactly the spec's fixed decision
ladder, evaluated in order with first match winning. -/
theorem select_nudge_tone_matches_spec_ladder (traits : Traits) (emotion : String)
    (flags : List String) :
    select_nudge_tone traits emotion flags = select_nudge_tone_spec traits emotion flags := by
  unfold select_nudge_tone select_nudge_tone_spec
  simp only [List.mem_cons, List.not_mem_nil, or_false]
  split_ifs <;> first | rfl | tauto

/-- C1 counterexample: a fresh user (`retreat_count` starts absent, i.e.
0) sends the resistance message "stop" twice; the engine returns the
de-escalation acknowledgment on the second turn too — not the claimed
suppression — because the gate tests the pre-increment snapshot count. -/
theorem resistance_second_message_still_acknowledges :
    runTurn (fun _ => "neutral") [] 0 0 [] "u" "stop" []
      = (some DEESCALATION_TEXT, [("u", [("retreat_count", TraitVal.num 1)])]) ∧
    (runTurn (fun _ => "neutral") [] 0 0
        [("u", [("retreat_count", TraitVal.num 1)])] "u" "stop" []).1
      = some DEESCALATION_TEXT ∧
    some DEESCALATION_TEXT ≠ (none : Option String) := by
  have hdr : detect_resistance "stop" = true := by decide
  refine ⟨?_, ?_, by decide⟩
  · norm_num [runTurn, generate_dark_nudge, hdr, update_retreat, update_trait,
      get_traits, getNum, lookupKey, setKey]
  · norm_num [runTurn, generate_dark_nudge, hdr, update_retreat, update_trait,
      get_traits, getNum, lookupKey, setKey]

/-- C1 (amended): on a resistance-flagged message the gate increments the
ledger's `retreat_count`, but suppression is decided on the caller's
pre-increment trait snapshot: no text iff the snapshot count is already
≥ 2, otherwise exactly the fixed de-escalation acknowledgment — so a
fresh user is acknowledged on the first two resistance messages and
suppressed only from the third. -/
theorem resistance_gate_uses_snapshot_count (emoOracle : String → String)
    (tasks : List TaskData) (pick : ℕ) (now : ℤ) (led : Ledger)
    (uid msg : String) (traits : Traits) (flags : List String)
    (h : detect_resistance msg = true) :
    generate_dark_nudge emoOracle tasks pick now led uid msg traits flags =
      ((if 2 ≤ getNum traits "retreat_count" 0 then none else some DEESCALATION_TEXT),
       update_trait led uid "retreat_count"
         (.num (getNum traits "retreat_count" 0 + 1))) := by
  simp only [generate_dark_nudge, h, if_true, update_retreat]
  split_ifs <;> rfl

/-- C1 witness: the gate at snapshot counts 0, 1 and 2 — acknowledgment,
acknowledgment, suppression. -/
theorem resistance_gate_uses_snapshot_count_witness :
    (generate_dark_nudge (fun _ => "neutral") [] 0 0 [] "u" "stop" [] []).1
      = some DEESCALATION_TEXT ∧
    (generate_dark_nudge (fun _ => "neutral") [] 0 0 [] "u" "stop"
        [("retreat_count", TraitVal.num 1)] []).1 = some DEESCALATION_TEXT ∧
    (generate_dark_nudge (fun _ => "neutral") [] 0 0 [] "u" "stop"
        [("retreat_count", TraitVal.num 2)] []).1 = none := by
  have h1 := resistance_gate_uses_snapshot_count (fun _ => "neutral") [] 0 0 []
    "u" "stop" [] [] (by decide)
  have h2 := resistance_gate_uses_snapshot_count (fun _ => "neutral") [] 0 0 []
    "u" "stop" [("retreat_count", TraitVal.num 1)] [] (by decide)
  have h3 := resistance_gate_uses_snapshot_count (fun _ => "neutral") [] 0 0 []
    "u" "stop" [("retreat_count", TraitVal.num 2)] [] (by decide)
  rw [h1, h2, h3]
  norm_num [getNum, lookupKey]

/-- C3 counterexample: previous nudge 40 minutes ago, fatigue level 2,
tone dark. After the tracking step the stored fatigue level is 0 — the
idle-window reset runs after the increment and overwrites it, so it is
not 1 as claimed — and `daily_dark_nudges`, the key the daily-cap gate
reads, is still absent: tracking incremented `nudge_tone_count_dark`, a
different counter. -/
theorem track_nudge_sent_reset_after_increment :
    lookupKey (get_traits (track_nudge_sent 40
        [("u", [("last_nudge_time", TraitVal.time 0), ("nudge_fatigue_level", TraitVal.num 2)])]
        "u" "dark"
        [("last_nudge_time", TraitVal.time 0), ("nudge_fatigue_level", TraitVal.num 2)]) "u")
      "nudge_fatigue_level" = some (TraitVal.num 0) ∧
    some (TraitVal.num 0) ≠ some (TraitVal.num 1) ∧
    lookupKey (get_traits (track_nudge_sent 40
        [("u", [("last_nudge_time", TraitVal.time 0), ("nudge_fatigue_level", TraitVal.num 2)])]
        "u" "dark"
        [("last_nudge_time", TraitVal.time 0), ("nudge_fatigue_level", TraitVal.num 2)]) "u")
      "daily_dark_nudges" = none ∧
    lookupKey (get_traits (track_nudge_sent 40
        [("u", [("last_nudge_time", TraitVal.time 0), ("nudge_fatigue_level", TraitVal.num 2)])]
        "u" "dark"
        [("last_nudge_time", TraitVal.time 0), ("nudge_fatigue_level", TraitVal.num 2)]) "u")
      "nudge_tone_count_dark" = some (TraitVal.num 1) := by
  refine ⟨?_, by decide, ?_, ?_⟩ <;>
    simp [track_nudge_sent, fatigue_reset, FATIGUE_RECOVERY_TIME, update_trait,
      get_traits, getTime, getNum, lookupKey, setKey]

/-- C3 (amended): the tracking step records `last_nudge_time = now`,
increments the per-tone counter `nudge_tone_count_<tone>` — a key
distinct from the `daily_dark_nudges` counter the daily-cap gate reads,
which tracking never writes — and increments `nudge_fatigue_level`; then
(after the increment) if the snapshot's previous nudge lies more than 30
minutes back it overwrites the fatigue level with 0, so the stored level
is 0 rather than 1 in the idle case. -/
theorem track_nudge_sent_effects (now : ℤ) (led : Ledger) (uid tone : String)
    (traits : Traits)
    (htone : tone ∈ ["soft", "hard", "dark", "teasing", "existential"]) :
    lookupKey (get_traits (track_nudge_sent now led uid tone traits) uid) "last_nudge_time"
      = some (TraitVal.time now) ∧
    lookupKey (get_traits (track_nudge_sent now led uid tone traits) uid)
        ("nudge_tone_count_" ++ tone)
      = some (TraitVal.num (getNum traits ("nudge_tone_count_" ++ tone) 0 + 1)) ∧
    lookupKey (get_traits (track_nudge_sent now led uid tone traits) uid) "nudge_fatigue_level"
      = some (TraitVal.num
          (match getTime traits "last_nudge_time" with
           | some t =>
               if FATIGUE_RECOVERY_TIME < now - t then 0
               else getNum traits "nudge_fatigue_level" 0 + 1
           | none => getNum traits "nudge_fatigue_level" 0 + 1)) ∧
    lookupKey (get_traits (track_nudge_sent now led uid tone traits) uid) "daily_dark_nudges"
      = lookupKey (get_traits led uid) "daily_dark_nudges" := by
  simp only [List.mem_cons, List.not_mem_nil, or_false] at htone
  rcases htone with rfl | rfl | rfl | rfl | rfl <;>
    · unfold track_nudge_sent fatigue_reset
      cases hgt : getTime traits "last_nudge_time" with
      | some t =>
          by_cases hf : FATIGUE_RECOVERY_TIME < now - t
          · simp [hgt, hf, get_traits_update_self, lookupKey_setKey_self,
              lookupKey_setKey_other]
          · simp [hgt, hf, get_traits_update_self, lookupKey_setKey_self,
              lookupKey_setKey_other]
      | none =>
          simp [hgt, get_traits_update_self, lookupKey_setKey_self,
            lookupKey_setKey_other]

/-- C3 witness: the amended tracking effects at the counterexample's
concrete state (dark tone, previous nudge 40 minutes back, fatigue 2). -/
theorem track_nudge_sent_effects_witness :
    lookupKey (get_traits (track_nudge_sent 40
        [("u", [("last_nudge_time", TraitVal.time 0), ("nudge_fatigue_level", TraitVal.num 2)])]
        "u" "dark"
        [("last_nudge_time", TraitVal.time 0), ("nudge_fatigue_level", TraitVal.num 2)]) "u")
      "last_nudge_time" = some (TraitVal.time 40) ∧
    lookupKey (get_traits (track_nudge_sent 40
        [("u", [("last_nudge_time", TraitVal.time 0), ("nudge_fatigue_level", TraitVal.num 2)])]
        "u" "dark"
        [("last_nudge_time", TraitVal.time 0), ("nudge_fatigue_level", TraitVal.num 2)]) "u")
      ("nudge_tone_count_" ++ "dark")
      = some (TraitVal.num (getNum
          [("last_nudge_time", TraitVal.time 0), ("nudge_fatigue_level", TraitVal.num 2)]
          ("nudge_tone_count_" ++ "dark") 0 + 1)) := by
  obtain ⟨w1, w2, w3, w4⟩ := track_nudge_sent_effects 40
    [("u", [("last_nudge_time", TraitVal.time 0), ("nudge_fatigue_level", TraitVal.num 2)])]
    "u" "dark"
    [("last_nudge_time", TraitVal.time 0), ("nudge_fatigue_level", TraitVal.num 2)]
    (by decide)
  exact ⟨w1, w2⟩

/-- C7: after the resistance gate (no resistance detected this turn), with
a parseable recorded `last_nudge_time = t`: a request strictly less than
10 minutes (`NUDGE_COOLDOWN_MINUTES`) later emits nothing and leaves the
ledger untouched; a request at least 10 minutes later whose message is not
task-like reaches the tone decision and emits a tactic drawn from the
resolved tone's pool (running the tracking step). -/
theorem cooldown_gate_blocks_then_allows (emoOracle : String → String)
    (tasks : List TaskData) (pick : ℕ) (now t : ℤ) (led : Ledger)
    (uid msg : String) (traits : Traits) (flags : List String)
    (hres : detect_resistance msg = false)
    (ht : getTime traits "last_nudge_time" = some t) :
    (now - t < 10 →
      generate_dark_nudge emoOracle tasks pick now led uid msg traits flags = (none, led)) ∧
    (10 ≤ now - t → is_task_like_message msg = false →
      generate_dark_nudge emoOracle tasks pick now led uid msg traits flags =
        (some (shorten_nudge_if_needed
            (pickTactic (PERSUASION_TACTICS
              (if select_nudge_tone traits ((emoOracle msg).toLower) flags = "dark" ∧
                  exceeded_daily_dark_limit traits
               then "hard"
               else select_nudge_tone traits ((emoOracle msg).toLower) flags)) pick) msg),
         track_nudge_sent now led uid
           (if select_nudge_tone traits ((emoOracle msg).toLower) flags = "dark" ∧
               exceeded_daily_dark_limit traits
            then "hard"
            else select_nudge_tone traits ((emoOracle msg).toLower) flags) traits)) := by
  constructor
  · intro hlt
    have hcool : in_nudge_cooldown now traits = true := by
      simp [in_nudge_cooldown, ht, NUDGE_COOLDOWN_MINUTES, hlt]
    simp [generate_dark_nudge, hres, hcool]
  · intro hge htask
    have hcool : in_nudge_cooldown now traits = false := by
      simp only [in_nudge_cooldown, ht, NUDGE_COOLDOWN_MINUTES, decide_eq_false_iff_not]
      omega
    simp [generate_dark_nudge, hres, hcool, htask]

/-- C7 witness: nudge recorded at minute 0; a request at minute 5 is
suppressed with no writes, a request at minute 11 emits the soft tactic
chosen by the ladder for a neutral message. -/
theorem cooldown_gate_blocks_then_allows_witness :
    generate_dark_nudge (fun _ => "neutral") [] 0 5
        [("u", [("last_nudge_time", TraitVal.time 0)])] "u" "hello"
        [("last_nudge_time", TraitVal.time 0)] []
      = (none, [("u", [("last_nudge_time", TraitVal.time 0)])]) ∧
    (generate_dark_nudge (fun _ => "neutral") [] 0 11
        [("u", [("last_nudge_time", TraitVal.time 0)])] "u" "hello"
        [("last_nudge_time", TraitVal.time 0)] []).1
      = some "Let\x27s start small, just 2 minutes?" := by
  have h1 := (cooldown_gate_blocks_then_allows (fun _ => "neutral") [] 0 5 0
    [("u", [("last_nudge_time", TraitVal.time 0)])] "u" "hello"
    [("last_nudge_time", TraitVal.time 0)] [] (by decide) (by decide)).1 (by norm_num)
  have h2 := (cooldown_gate_blocks_then_allows (fun _ => "neutral") [] 0 11 0
    [("u", [("last_nudge_time", TraitVal.time 0)])] "u" "hello"
    [("last_nudge_time", TraitVal.time 0)] [] (by decide) (by decide)).2
    (by norm_num) (by with_unfolding_all decide)
  refine ⟨h1, ?_⟩
  rw [h2]
  have hl : "neutral".toLower = "neutral" := by with_unfolding_all decide
  have hshort : shorten_nudge_if_needed "Let\x27s start small, just 2 minutes?" "hello"
      = "Let\x27s start small, just 2 minutes?" := by with_unfolding_all decide
  simp [select_nudge_tone, exceeded_daily_dark_limit, MAX_DARK_NUDGES_PER_DAY,
    getNum, getStr, lookupKey, hl, PERSUASION_TACTICS, pickTactic, hshort,
    show ¬ ((3 : ℚ) ≤ 0) from by norm_num]

/-- C10: when no resistance is detected, the cooldown has passed, the
message is task-like and an ongoing avoided task exists, the engine
returns the task nudge (shortened if needed) and the ledger is returned
unchanged — the tracking step never runs, so `last_nudge_time`,
`nudge_fatigue_level` and the per-tone counters keep their prior values
and no cooldown or fatigue accrues. -/
theorem task_branch_returns_without_tracking (emoOracle : String → String)
    (tasks : List TaskData) (pick : ℕ) (now : ℤ) (led : Ledger)
    (uid msg : String) (traits : Traits) (flags : List String)
    (td : TaskData) (rest : List TaskData)
    (hres : detect_resistance msg = false)
    (hcool : in_nudge_cooldown now traits = false)
    (htask : is_task_like_message msg = true)
    (hts : tasks = td :: rest) :
    generate_dark_nudge emoOracle tasks pick now led uid msg traits flags =
      (some (shorten_nudge_if_needed (generate_task_nudge td) msg), led) := by
  subst hts
  simp [generate_dark_nudge, hres, hcool, htask]

/-- C10 witness: a task-like message with one avoided task; the engine
returns the truncated high-urgency task nudge and the ledger — including
the stored fatigue level — is exactly the input ledger. -/
theorem task_branch_returns_without_tracking_witness :
    generate_dark_nudge (fun _ => "neutral") [⟨"study", 0.9, 5, 0.8⟩] 0 0
        [("u", [("nudge_fatigue_level", TraitVal.num 2)])] "u" "i need to study"
        [("nudge_fatigue_level", TraitVal.num 2)] []
      = (some "You\x27ve been avoiding *study* for a while.",
         [("u", [("nudge_fatigue_level", TraitVal.num 2)])]) := by
  have h := task_branch_returns_without_tracking (fun _ => "neutral")
    [⟨"study", 0.9, 5, 0.8⟩] 0 0
    [("u", [("nudge_fatigue_level", TraitVal.num 2)])] "u" "i need to study"
    [("nudge_fatigue_level", TraitVal.num 2)] [] ⟨"study", 0.9, 5, 0.8⟩ []
    (by decide) (by decide) (by with_unfolding_all decide) rfl
  rw [h]
  have hg : generate_task_nudge ⟨"study", 0.9, 5, 0.8⟩ =
      "You\x27ve been avoiding *study* for a while. What\x27s stopping you really? Let\x27s handle it—step by step." := by
    simp [generate_task_nudge, show (0.7 : ℚ) < 0.8 from by norm_num]
  rw [hg]
  have hs : shorten_nudge_if_needed
      "You\x27ve been avoiding *study* for a while. What\x27s stopping you really? Let\x27s handle it—step by step."
      "i need to study"
      = "You\x27ve been avoiding *study* for a while." := by
    with_unfolding_all decide
  rw [hs]

/-- C8: evaluation of `analyze_behavior` at the failing input, for every
external classifier and every procrastination matcher. A fresh user sends
"i'll do it later, i'm tired" twice. First call: both excuse flags are
emitted, but because `.get("common_excuses_list", [])` returns a fresh
list for a user with no stored list, the second excuse's write overwrites
the first, leaving only "i'm tired" stored. Second call: "i'll do it
later" is absent from the stored list, so its `excuse:` flag is emitted
AGAIN — excuse tracking is not idempotent, against the code's own
"check if the excuse is new for this user" intent. -/
theorem excuse_flag_reemitted_after_overwrite (emoOracle : String → String)
    (procMatch : String → Bool) :
    ("excuse:i\x27ll_do_it_later" ∈
      (analyze_behavior emoOracle procMatch [] "u" "i\x27ll do it later, i\x27m tired").1) ∧
    getList (get_traits
        (analyze_behavior emoOracle procMatch [] "u" "i\x27ll do it later, i\x27m tired").2 "u")
        "common_excuses_list"
      = some ["i\x27m tired"] ∧
    ("excuse:i\x27ll_do_it_later" ∈
      (analyze_behavior emoOracle procMatch
        (analyze_behavior emoOracle procMatch [] "u" "i\x27ll do it later, i\x27m tired").2
        "u" "i\x27ll do it later, i\x27m tired").1) ∧
    getList (get_traits
        (analyze_behavior emoOracle procMatch
          (analyze_behavior emoOracle procMatch [] "u" "i\x27ll do it later, i\x27m tired").2
          "u" "i\x27ll do it later, i\x27m tired").2 "u")
        "common_excuses_list"
      = some ["i\x27m tired", "i\x27ll do it later"] := by
  have hlow : ("i\x27ll do it later, i\x27m tired" : String).toLower
      = "i\x27ll do it later, i\x27m tired" := by with_unfolding_all decide
  have o1 : occursIn "i\x27ll do it later" "i\x27ll do it later, i\x27m tired" = true := by decide
  have o2 : occursIn "i\x27m tired" "i\x27ll do it later, i\x27m tired" = true := by decide
  have o3 : occursIn "maybe tomorrow" "i\x27ll do it later, i\x27m tired" = false := by decide
  have o4 : occursIn "not in the mood" "i\x27ll do it later, i\x27m tired" = false := by decide
  have o5 : occursIn "i\x27m lazy" "i\x27ll do it later, i\x27m tired" = false := by decide
  have o6 : occursIn "i’m overwhelmed" "i\x27ll do it later, i\x27m tired" = false := by decide
  have o7 : occursIn "i don’t feel ready" "i\x27ll do it later, i\x27m tired" = false := by decide
  have p1 : occursIn "stuck" "i\x27ll do it later, i\x27m tired" = false := by decide
  have p2 : occursIn "broke my promise" "i\x27ll do it later, i\x27m tired" = false := by decide
  have p3 : occursIn "ashamed" "i\x27ll do it later, i\x27m tired" = false := by decide
  have p4 : occursIn "shame" "i\x27ll do it later, i\x27m tired" = false := by decide
  have p5 : occursIn "exhausted" "i\x27ll do it later, i\x27m tired" = false := by decide
  have p6 : occursIn "hopeless" "i\x27ll do it later, i\x27m tired" = false := by decide
  have hres : detect_resistance "i\x27ll do it later, i\x27m tired" = false := by decide
  have hs1 : "excuse:" ++ slugOf "i\x27ll do it later" = "excuse:i\x27ll_do_it_later" := by
    with_unfolding_all decide
  have hs2 : "excuse:" ++ slugOf "i\x27m tired" = "excuse:i\x27m_tired" := by
    with_unfolding_all decide
  cases hp : procMatch "i\x27ll do it later, i\x27m tired" <;>
    simp [analyze_behavior, excuseStep, COMMON_EXCUSES, EMOTIONAL_PHRASES, hlow, hp,
      o1, o2, o3, o4, o5, o6, o7, p1, p2, p3, p4, p5, p6, hres, hs1, hs2,
      update_trait, get_traits, getList, getNum, lookupKey, setKey]

end Nudge
